import Mathlib

/-!
# Verification of the interval-geometry core of react-timeline-range-slider

Shallow embedding of `src/index.tsx`. Timestamps (JS `Date` objects and the
numeric millisecond values obtained from them via `format(date, "T")` /
`Number(t)`) are modelled as `Int` epoch milliseconds; the floating-point
percent arithmetic is modelled exactly over `ℚ`.
-/

/-- A mapped point, as produced by `getTimelineConfig`:
`{ id, percent, value }` where `value` is the millisecond epoch of the date. -/
structure MappedPoint where
  id : String
  percent : ℚ
  value : Int
deriving Repr, DecidableEq

/-- A mapped interval `{ id, source, target }` as emitted by
`getFormattedBlockedIntervals` and `getNowConfig`. -/
structure MappedInterval where
  id : String
  source : MappedPoint
  target : MappedPoint
deriving Repr, DecidableEq

/-- A blocked (disabled) interval `{ id, start, end }` supplied by the caller.
The TypeScript field `end` is a Lean keyword, hence `end_`. -/
structure BlockedInterval where
  id : String
  start : Int
  end_ : Int
deriving Repr, DecidableEq

/-- The payload passed to `onUpdateCallback`: `{ error, time }`. The
`time` array of `new Date(t)` objects is modelled by the list of the
underlying epoch values. -/
structure UpdateCallbackData where
  error : Bool
  time : List Int
deriving Repr, DecidableEq

/-- `getTimelineConfig(timelineStart, timelineLength)(date, idPrefix)`
(src/index.tsx lines 357-365):
`percent = differenceInMilliseconds(date, timelineStart) / timelineLength * 100`,
`value = Number(format(date, "T"))` (the epoch milliseconds of `date`),
`id = idPrefix + "-" + value`. The source performs no check on
`timelineLength`; in ℚ a division by `0` yields `0` (in JS it yields
`Infinity`/`NaN`) — either way a numeric result, never an exception. -/
def getTimelineConfig (timelineStart timelineLength : Int) (date : Int)
    (pfx : String) : MappedPoint :=
  { id := pfx ++ "-" ++ toString date
    percent := ((date - timelineStart : Int) : ℚ) / (timelineLength : ℚ) * 100
    value := date }

/-- The body of the `map` inside `getFormattedBlockedIntervals`
(src/index.tsx lines 376-386): clip `start` from below to `startTime`
(`isBefore(start, startTime)`), clip `end` from above to `endTime`
(`isAfter(end, endTime)`), then map both endpoints. -/
def clipOne (startTime endTime timelineLength : Int) (interval : BlockedInterval)
    (index : Nat) : MappedInterval :=
  let start := if interval.start < startTime then startTime else interval.start
  let end_ := if endTime < interval.end_ then endTime else interval.end_
  { id := "blocked-track-" ++ toString index
    source := getTimelineConfig startTime timelineLength start "blocked-start"
    target := getTimelineConfig startTime timelineLength end_ "blocked-end" }

/-- `getFormattedBlockedIntervals(blockedDates, [startTime, endTime])`
(src/index.tsx lines 367-389): returns `null` (here `none`) on an empty
list, otherwise maps each interval through the clipping/mapping step with
its 0-based index. -/
def getFormattedBlockedIntervals (blockedDates : List BlockedInterval)
    (startTime endTime : Int) : Option (List MappedInterval) :=
  if blockedDates.length = 0 then none
  else
    let timelineLength := endTime - startTime
    some (blockedDates.enum.map fun p =>
      clipOne startTime endTime timelineLength p.2 p.1)

/-- date-fns `addMinutes(date, n)`: adds `n * 60000` milliseconds. -/
def addMinutes (date : Int) (amount : Int) : Int := date + amount * 60000

/-- `getNowConfig([startTime, endTime])` (src/index.tsx lines 391-397).
The source calls `new Date()` twice — once for the source point and once,
inside `addMinutes(new Date(), 1)`, for the target point; each call is a
separate wall-clock reading, modelled by the two parameters `clock1`
(first `new Date()`) and `clock2` (second `new Date()`). -/
def getNowConfig (clock1 clock2 : Int) (startTime endTime : Int) : MappedInterval :=
  let timelineLength := endTime - startTime
  let source := getTimelineConfig startTime timelineLength clock1 "now-start"
  let target := getTimelineConfig startTime timelineLength (addMinutes clock2 1) "now-end"
  { id := "now-track", source := source, target := target }

/-- `checkIsSelectedIntervalNotValid([start, end], source, target)`
(src/index.tsx lines 418-439), with `startInterval = source.value` and
`endInterval = target.value`; the `&&`/`||` chains of JS comparisons are
written as decidable propositions. -/
def checkIsSelectedIntervalNotValid (start end_ : Int)
    (source target : MappedPoint) : Bool :=
  let startInterval := source.value
  let endInterval := target.value
  if (startInterval > start ∧ endInterval ≤ end_) ∨
      (startInterval ≥ start ∧ endInterval < end_) then true
  else if start ≥ startInterval ∧ end_ ≤ endInterval then true
  else
    let isStartInBlockedInterval :=
      start > startInterval ∧ start < endInterval ∧ end_ ≥ endInterval
    let isEndInBlockedInterval :=
      end_ < endInterval ∧ end_ > startInterval ∧ start ≤ startInterval
    decide (isStartInBlockedInterval ∨ isEndInBlockedInterval)

/-- `onUpdate(newTime)` (src/index.tsx lines 441-463), modelled as the list
of `UpdateCallbackData` values passed to `onUpdateCallback` during one
invocation. `hasCallback` records whether `onUpdateCallback` was supplied;
`blockedDates`/`startTime`/`endTime` are the props from which the getter
`disabledIntervals` recomputes `getFormattedBlockedIntervals`. The
`newTime.map((t) => new Date(t))` conversion preserves the epoch value. -/
def onUpdateEmissions (hasCallback : Bool) (blockedDates : List BlockedInterval)
    (startTime endTime : Int) (newTime : List Int) : List UpdateCallbackData :=
  if hasCallback = false then []
  else
    match getFormattedBlockedIntervals blockedDates startTime endTime with
    | some disabledIntervals =>
      if disabledIntervals.length ≠ 0 then
        let isValuesNotValid := disabledIntervals.any fun mi =>
          checkIsSelectedIntervalNotValid (newTime.getD 0 0) (newTime.getD 1 0)
            mi.source mi.target
        [{ error := isValuesNotValid, time := newTime.map fun t => t }]
      else
        [{ error := false, time := newTime.map fun t => t }]
    | none =>
      [{ error := false, time := newTime.map fun t => t }]

/-- Modelled from the spec (section 4.1): the coordinate mapper as the spec
describes it, failing with `DegenerateWindowError` (here `none`) when
`length <= 0`; used to compare the spec's contract with the code's
`getTimelineConfig`, which performs no such check. -/
def getTimelineConfigSpec (timelineStart timelineLength : Int) (date : Int)
    (pfx : String) : Option MappedPoint :=
  if timelineLength ≤ 0 then none
  else some (getTimelineConfig timelineStart timelineLength date pfx)

/-- Percent bound helper: a date within `[s, s + len]` of a positive-length
window maps to a percent in `[0, 100]`. -/
lemma getTimelineConfig_percent_mem (s len x : Int) (p : String)
    (hlen : 0 < len) (h0 : s ≤ x) (h1 : x ≤ s + len) :
    0 ≤ (getTimelineConfig s len x p).percent ∧
      (getTimelineConfig s len x p).percent ≤ 100 := by
  have hl : (0 : ℚ) < (len : ℚ) := by exact_mod_cast hlen
  have hn : (0 : ℚ) ≤ ((x - s : Int) : ℚ) := by exact_mod_cast (by omega : (0:Int) ≤ x - s)
  have hle : ((x - s : Int) : ℚ) ≤ (len : ℚ) := by exact_mod_cast (by omega : x - s ≤ len)
  constructor
  · exact mul_nonneg (div_nonneg hn hl.le) (by norm_num)
  · calc ((x - s : Int) : ℚ) / (len : ℚ) * 100 ≤ 1 * 100 := by
          exact mul_le_mul_of_nonneg_right ((div_le_one hl).mpr hle) (by norm_num)
    _ = 100 := by norm_num

/-- C1: `checkIsSelectedIntervalNotValid` returns true iff at least one of
the four disjunctive conditions of spec section 4.4 holds (with
`blockedStart = source.value`, `blockedEnd = target.value`), and false
otherwise. -/
theorem overlap_validator_iff_four_conditions (s e : Int)
    (source target : MappedPoint) (hse : s ≤ e) :
    checkIsSelectedIntervalNotValid s e source target = true ↔
      (((source.value > s ∧ target.value ≤ e) ∨
        (source.value ≥ s ∧ target.value < e)) ∨
       (s ≥ source.value ∧ e ≤ target.value) ∨
       (s > source.value ∧ s < target.value ∧ e ≥ target.value) ∨
       (e < target.value ∧ e > source.value ∧ s ≤ source.value)) := by
  simp only [checkIsSelectedIntervalNotValid]
  split_ifs with h1 h2
  · exact iff_of_true rfl (Or.inl h1)
  · exact iff_of_true rfl (Or.inr (Or.inl h2))
  · simp only [decide_eq_true_eq]
    omega

/-- Witness for C1 at selection [5, 10], blocked values [3, 7]. -/
theorem overlap_validator_iff_four_conditions_witness :
    (5 : Int) ≤ 10 ∧
    (checkIsSelectedIntervalNotValid 5 10 ⟨"a", 0, 3⟩ ⟨"b", 0, 7⟩ = true ↔
      ((((3:Int) > 5 ∧ (7:Int) ≤ 10) ∨ ((3:Int) ≥ 5 ∧ (7:Int) < 10)) ∨
       ((5:Int) ≥ 3 ∧ (10:Int) ≤ 7) ∨
       ((5:Int) > 3 ∧ (5:Int) < 7 ∧ (10:Int) ≥ 7) ∨
       ((10:Int) < 7 ∧ (10:Int) > 3 ∧ (5:Int) ≤ 3))) :=
  ⟨by decide, overlap_validator_iff_four_conditions 5 10 ⟨"a", 0, 3⟩ ⟨"b", 0, 7⟩ (by decide)⟩

/-- C6: a selection fully contained in (or equal to) the blocked interval
(`B1 <= S1 <= S2 <= B2`) is reported invalid. -/
theorem containment_selection_invalid (s1 s2 : Int) (source target : MappedPoint)
    (h1 : source.value ≤ s1) (h2 : s1 ≤ s2) (h3 : s2 ≤ target.value) :
    checkIsSelectedIntervalNotValid s1 s2 source target = true := by
  simp only [checkIsSelectedIntervalNotValid]
  split_ifs with hA hB
  · rfl
  · rfl
  · exfalso
    exact hB ⟨by omega, by omega⟩

/-- Witness for C6 at selection [4, 6] inside blocked values [3, 7]. -/
theorem containment_selection_invalid_witness :
    (3 : Int) ≤ 4 ∧ (4 : Int) ≤ 6 ∧ (6 : Int) ≤ 7 ∧
    checkIsSelectedIntervalNotValid 4 6 ⟨"a", 0, 3⟩ ⟨"b", 0, 7⟩ = true :=
  ⟨by decide, by decide, by decide,
    containment_selection_invalid 4 6 ⟨"a", 0, 3⟩ ⟨"b", 0, 7⟩
      (by decide) (by decide) (by decide)⟩

/-- C10: a non-degenerate selection that merely abuts a non-degenerate
blocked interval at a single boundary point (`end = blockedStart` or
`start = blockedEnd`) is reported valid (the validator returns false). -/
theorem abutting_selection_valid (s e : Int) (source target : MappedPoint)
    (hse : s < e) (hbt : source.value < target.value)
    (habut : e = source.value ∨ s = target.value) :
    checkIsSelectedIntervalNotValid s e source target = false := by
  simp only [checkIsSelectedIntervalNotValid]
  split_ifs with h1 h2
  · exfalso; omega
  · exfalso; omega
  · simp only [decide_eq_false_iff_not]
    omega

/-- Witness for C10 at selection [1, 3] abutting blocked values [3, 7]. -/
theorem abutting_selection_valid_witness :
    (1 : Int) < 3 ∧ (3 : Int) < 7 ∧ ((3 : Int) = 3 ∨ (1 : Int) = 7) ∧
    checkIsSelectedIntervalNotValid 1 3 ⟨"a", 0, 3⟩ ⟨"b", 0, 7⟩ = false :=
  ⟨by decide, by decide, Or.inl rfl,
    abutting_selection_valid 1 3 ⟨"a", 0, 3⟩ ⟨"b", 0, 7⟩
      (by decide) (by decide) (Or.inl rfl)⟩

/-- C9: for a fixed window of positive length, the percent mapping is
strictly monotone: `a < b` implies `percent(a) < percent(b)` (exact
rational arithmetic). -/
theorem percent_strict_mono (timelineStart timelineLength a b : Int)
    (p q : String) (hlen : 0 < timelineLength) (hab : a < b) :
    (getTimelineConfig timelineStart timelineLength a p).percent <
      (getTimelineConfig timelineStart timelineLength b q).percent := by
  simp only [getTimelineConfig]
  have hl : (0 : ℚ) < (timelineLength : ℚ) := by exact_mod_cast hlen
  have h : ((a - timelineStart : Int) : ℚ) < ((b - timelineStart : Int) : ℚ) := by
    exact_mod_cast (by omega : a - timelineStart < b - timelineStart)
  exact mul_lt_mul_of_pos_right ((div_lt_div_iff_of_pos_right hl).mpr h) (by norm_num)

/-- Witness for C9 at window start 0, length 100, timestamps 3 < 5. -/
theorem percent_strict_mono_witness :
    (0 : Int) < 100 ∧ (3 : Int) < 5 ∧
    (getTimelineConfig 0 100 3 "x").percent < (getTimelineConfig 0 100 5 "x").percent :=
  ⟨by decide, by decide, percent_strict_mono 0 100 3 5 "x" "x" (by decide) (by decide)⟩

/-- C7: with an update callback supplied and an empty blocked-interval list,
`onUpdate` emits exactly one `ValidationResult`, with `error = false` and
`time` equal to the converted input timestamps. -/
theorem onUpdate_empty_blocked_no_error (startTime endTime : Int)
    (newTime : List Int) :
    onUpdateEmissions true [] startTime endTime newTime =
      [{ error := false, time := newTime }] := by
  simp [onUpdateEmissions, getFormattedBlockedIntervals]

/-- C8 (code bug evaluation): `getNowConfig` reads the wall clock twice; if
the clock advances by 1 ms between the two `new Date()` calls (first
reading 0, second reading 1, window [0, 86400000]), the emitted target
value exceeds the source value by 60001 ms, not the claimed 60000 ms. -/
theorem now_marker_resampled_clock_eval :
    (getNowConfig 0 1 0 86400000).source.value = 0 ∧
    (getNowConfig 0 1 0 86400000).target.value = 60001 ∧
    (getNowConfig 0 1 0 86400000).target.value ≠
      (getNowConfig 0 1 0 86400000).source.value + 60000 := by
  refine ⟨rfl, rfl, ?_⟩
  decide

/-- C5 (counterexample): on the degenerate window of length 0 the code's
`getTimelineConfig` does not fail — it returns a numeric `MappedPoint`
(value 5; its percent is the JS artifact `Infinity`, here the ℚ artifact
of division by zero) while the spec-modelled mapper signals
`DegenerateWindowError` (`none`). -/
theorem degenerate_window_no_error_counterexample :
    (getTimelineConfig 0 0 5 "p").value = 5 ∧
    getTimelineConfigSpec 0 0 5 "p" = none := by
  constructor
  · rfl
  · rfl

/-- C5 (amended): `getTimelineConfig` performs no degenerate-window check
and never fails; for every positive window length it agrees with the
spec-modelled mapper, and for `length <= 0` it still returns a numeric
`MappedPoint` with `value = date` where the spec-modelled mapper fails. -/
theorem mapper_total_agrees_with_spec_mapper (s len d : Int) (p : String) :
    (0 < len → getTimelineConfigSpec s len d p = some (getTimelineConfig s len d p)) ∧
    (len ≤ 0 → getTimelineConfigSpec s len d p = none ∧
      (getTimelineConfig s len d p).value = d) := by
  constructor
  · intro hlen
    simp [getTimelineConfigSpec]
    omega
  · intro hlen
    refine ⟨?_, rfl⟩
    simp [getTimelineConfigSpec]
    omega

/-- Witness for the amended C5 at window length 100 and length -3. -/
theorem mapper_total_agrees_with_spec_mapper_witness :
    getTimelineConfigSpec 0 100 5 "p" = some (getTimelineConfig 0 100 5 "p") ∧
    (getTimelineConfigSpec 0 (-3) 5 "p" = none ∧
      (getTimelineConfig 0 (-3) 5 "p").value = 5) :=
  ⟨(mapper_total_agrees_with_spec_mapper 0 100 5 "p").1 (by decide),
   (mapper_total_agrees_with_spec_mapper 0 (-3) 5 "p").2 (by decide)⟩

/-- Every interval in the output of `getFormattedBlockedIntervals` is the
clipped image of some input interval. -/
lemma mem_getFormattedBlockedIntervals (blockedDates : List BlockedInterval)
    (startTime endTime : Int) (out : List MappedInterval) (mi : MappedInterval)
    (hout : getFormattedBlockedIntervals blockedDates startTime endTime = some out)
    (hmi : mi ∈ out) :
    ∃ iv ∈ blockedDates, ∃ i,
      mi = clipOne startTime endTime (endTime - startTime) iv i := by
  simp only [getFormattedBlockedIntervals] at hout
  split_ifs at hout
  injection hout with hout
  subst hout
  obtain ⟨p, hp, rfl⟩ := List.mem_map.mp hmi
  refine ⟨p.2, ?_, p.1, rfl⟩
  have hget := List.mem_enum_iff_getElem?.mp hp
  exact List.mem_iff_getElem?.mpr ⟨p.1, hget⟩

/-- C2 (counterexample): window [0, 100] and blocked interval [200, 300]
(entirely after the window): the emitted source percent is 200, outside
[0, 100] — clipping is one-sided, so the claim fails. -/
theorem clip_percent_bounded_counterexample :
    ¬ (∀ out, getFormattedBlockedIntervals [⟨"b", 200, 300⟩] 0 100 = some out →
        ∀ mi ∈ out,
          0 ≤ mi.source.percent ∧ mi.source.percent ≤ 100 ∧
          0 ≤ mi.target.percent ∧ mi.target.percent ≤ 100) := by
  intro h
  have hout : getFormattedBlockedIntervals [⟨"b", 200, 300⟩] 0 100 =
      some [⟨"blocked-track-0", ⟨"blocked-start-200", 200, 200⟩,
             ⟨"blocked-end-100", 100, 100⟩⟩] := by
    norm_num [getFormattedBlockedIntervals, clipOne, getTimelineConfig, List.enum_cons]
    exact ⟨rfl, rfl, rfl⟩
  have hm := h _ hout _ (List.mem_singleton_self _)
  norm_num at hm

/-- C2 (amended): for every window with positive length, every blocked
interval that meets the window (`start <= window.end` and
`window.start <= end`) is mapped to percents within [0, 100]; the
one-sided clipping does not bound intervals lying strictly outside the
window. -/
theorem clip_percent_bounded_when_meets_window (startTime endTime : Int)
    (ivs : List BlockedInterval) (out : List MappedInterval)
    (hw : startTime < endTime)
    (hin : ∀ iv ∈ ivs, iv.start ≤ endTime ∧ startTime ≤ iv.end_)
    (hout : getFormattedBlockedIntervals ivs startTime endTime = some out) :
    ∀ mi ∈ out,
      0 ≤ mi.source.percent ∧ mi.source.percent ≤ 100 ∧
      0 ≤ mi.target.percent ∧ mi.target.percent ≤ 100 := by
  intro mi hmi
  obtain ⟨iv, hiv, i, rfl⟩ :=
    mem_getFormattedBlockedIntervals ivs startTime endTime out mi hout hmi
  obtain ⟨hA, hB⟩ := hin iv hiv
  have hs := getTimelineConfig_percent_mem startTime (endTime - startTime)
    (if iv.start < startTime then startTime else iv.start) "blocked-start"
    (by omega) (by split_ifs <;> omega) (by split_ifs <;> omega)
  have ht := getTimelineConfig_percent_mem startTime (endTime - startTime)
    (if endTime < iv.end_ then endTime else iv.end_) "blocked-end"
    (by omega) (by split_ifs <;> omega) (by split_ifs <;> omega)
  simp only [clipOne]
  exact ⟨hs.1, hs.2, ht.1, ht.2⟩

/-- Witness for the amended C2: blocked [10, 20] inside window [0, 100]. -/
theorem clip_percent_bounded_when_meets_window_witness :
    0 ≤ (⟨"blocked-track-0", ⟨"blocked-start-10", 10, 10⟩,
          ⟨"blocked-end-20", 20, 20⟩⟩ : MappedInterval).source.percent ∧
    (⟨"blocked-track-0", ⟨"blocked-start-10", 10, 10⟩,
      ⟨"blocked-end-20", 20, 20⟩⟩ : MappedInterval).source.percent ≤ 100 ∧
    0 ≤ (⟨"blocked-track-0", ⟨"blocked-start-10", 10, 10⟩,
          ⟨"blocked-end-20", 20, 20⟩⟩ : MappedInterval).target.percent ∧
    (⟨"blocked-track-0", ⟨"blocked-start-10", 10, 10⟩,
      ⟨"blocked-end-20", 20, 20⟩⟩ : MappedInterval).target.percent ≤ 100 :=
  clip_percent_bounded_when_meets_window 0 100 [⟨"b", 10, 20⟩]
    [⟨"blocked-track-0", ⟨"blocked-start-10", 10, 10⟩, ⟨"blocked-end-20", 20, 20⟩⟩]
    (by norm_num) (by simp)
    (by norm_num [getFormattedBlockedIntervals, clipOne, getTimelineConfig,
                  List.enum_cons]
        exact ⟨rfl, rfl, rfl⟩)
    _ (List.mem_singleton_self _)

/-- C3 (counterexample): window [0, 100] and blocked interval [200, 300]:
the emitted interval has `source.value = 200 > 100 = target.value`, so the
`source.value <= target.value` invariant fails for intervals entirely
outside the window. -/
theorem clip_value_order_counterexample :
    ¬ (∀ out, getFormattedBlockedIntervals [⟨"c", 200, 300⟩] 0 100 = some out →
        ∀ mi ∈ out, mi.source.value ≤ mi.target.value) := by
  intro h
  have hout : getFormattedBlockedIntervals [⟨"c", 200, 300⟩] 0 100 =
      some [⟨"blocked-track-0", ⟨"blocked-start-200", 200, 200⟩,
             ⟨"blocked-end-100", 100, 100⟩⟩] := by
    norm_num [getFormattedBlockedIntervals, clipOne, getTimelineConfig, List.enum_cons]
    exact ⟨rfl, rfl, rfl⟩
  have hm := h _ hout _ (List.mem_singleton_self _)
  norm_num at hm

/-- C3 (amended): `source.value <= target.value` holds for every emitted
interval whose input satisfies `start <= end` and meets the window
(`start <= window.end` and `window.start <= end`); it fails for blocked
intervals disjoint from the window. -/
theorem clip_value_order_when_meets_window (startTime endTime : Int)
    (ivs : List BlockedInterval) (out : List MappedInterval)
    (hw : startTime < endTime)
    (hin : ∀ iv ∈ ivs, iv.start ≤ iv.end_ ∧ iv.start ≤ endTime ∧ startTime ≤ iv.end_)
    (hout : getFormattedBlockedIntervals ivs startTime endTime = some out) :
    ∀ mi ∈ out, mi.source.value ≤ mi.target.value := by
  intro mi hmi
  obtain ⟨iv, hiv, i, rfl⟩ :=
    mem_getFormattedBlockedIntervals ivs startTime endTime out mi hout hmi
  obtain ⟨h1, h2, h3⟩ := hin iv hiv
  simp only [clipOne, getTimelineConfig]
  split_ifs <;> omega

/-- Witness for the amended C3: blocked [10, 20] inside window [0, 100]. -/
theorem clip_value_order_when_meets_window_witness :
    (⟨"blocked-track-0", ⟨"blocked-start-10", 10, 10⟩,
      ⟨"blocked-end-20", 20, 20⟩⟩ : MappedInterval).source.value ≤
    (⟨"blocked-track-0", ⟨"blocked-start-10", 10, 10⟩,
      ⟨"blocked-end-20", 20, 20⟩⟩ : MappedInterval).target.value :=
  clip_value_order_when_meets_window 0 100 [⟨"b", 10, 20⟩]
    [⟨"blocked-track-0", ⟨"blocked-start-10", 10, 10⟩, ⟨"blocked-end-20", 20, 20⟩⟩]
    (by norm_num) (by simp)
    (by norm_num [getFormattedBlockedIntervals, clipOne, getTimelineConfig,
                  List.enum_cons]
        exact ⟨rfl, rfl, rfl⟩)
    _ (List.mem_singleton_self _)

/-- Mapping a point equal to the window start yields percent 0. -/
lemma getTimelineConfig_percent_eq_zero (s len x : Int) (p : String)
    (hx : x = s) : (getTimelineConfig s len x p).percent = 0 := by
  simp [getTimelineConfig, hx]

/-- Mapping a point equal to the window end yields percent 100. -/
lemma getTimelineConfig_percent_eq_hundred (s len x : Int) (p : String)
    (hlen : 0 < len) (hx : x = s + len) :
    (getTimelineConfig s len x p).percent = 100 := by
  subst hx
  simp only [getTimelineConfig]
  have h1 : s + len - s = len := by omega
  rw [h1, div_self (by exact_mod_cast hlen.ne' : ((len : Int) : ℚ) ≠ 0), one_mul]

/-- Mapping a point strictly before the window start yields a negative
percent. -/
lemma getTimelineConfig_percent_neg (s len x : Int) (p : String)
    (hlen : 0 < len) (hx : x < s) : (getTimelineConfig s len x p).percent < 0 := by
  simp only [getTimelineConfig]
  have hl : (0 : ℚ) < (len : ℚ) := by exact_mod_cast hlen
  have hn : ((x - s : Int) : ℚ) < 0 := by exact_mod_cast (by omega : x - s < (0:Int))
  exact mul_neg_of_neg_of_pos (div_neg_of_neg_of_pos hn hl) (by norm_num)

/-- Mapping a point strictly after the window end yields a percent
exceeding 100. -/
lemma getTimelineConfig_percent_gt_hundred (s len x : Int) (p : String)
    (hlen : 0 < len) (hx : s + len < x) :
    100 < (getTimelineConfig s len x p).percent := by
  simp only [getTimelineConfig]
  have hl : (0 : ℚ) < (len : ℚ) := by exact_mod_cast hlen
  have hn : (len : ℚ) < ((x - s : Int) : ℚ) := by exact_mod_cast (by omega : len < x - s)
  calc (100 : ℚ) = 1 * 100 := by norm_num
  _ < ((x - s : Int) : ℚ) / (len : ℚ) * 100 :=
      mul_lt_mul_of_pos_right ((one_lt_div hl).mpr hn) (by norm_num)

/-- C4 (counterexample): window [0, 100] and blocked interval [-100, -50]
(entirely before the window): the emitted interval has source percent 0
but target percent -50 — source and target do not collapse to a common
window boundary. -/
theorem outside_interval_collapse_counterexample :
    ¬ (∀ out, getFormattedBlockedIntervals [⟨"d", -100, -50⟩] 0 100 = some out →
        ∀ mi ∈ out,
          (mi.source.percent = 0 ∧ mi.target.percent = 0) ∨
          (mi.source.percent = 100 ∧ mi.target.percent = 100)) := by
  intro h
  have hout : getFormattedBlockedIntervals [⟨"d", -100, -50⟩] 0 100 =
      some [⟨"blocked-track-0", ⟨"blocked-start-0", 0, 0⟩,
             ⟨"blocked-end--50", -50, -50⟩⟩] := by
    norm_num [getFormattedBlockedIntervals, clipOne, getTimelineConfig, List.enum_cons]
    exact ⟨rfl, rfl, rfl⟩
  have hm := h _ hout _ (List.mem_singleton_self _)
  norm_num at hm

/-- C4 (amended): a blocked interval outside the window still yields a
MappedInterval, but the clipping is one-sided: only when the interval
touches the window boundary exactly (`end = window.start` or
`start = window.end`) do source and target collapse to the same boundary
(percent 0, resp. 100); an interval strictly before the window keeps its
original end (target percent < 0, an inverted interval), and one strictly
after keeps its original start (source percent > 100). -/
theorem outside_interval_one_sided_clip (startTime endTime : Int)
    (iv : BlockedInterval) (out : MappedInterval)
    (hw : startTime < endTime) (hse : iv.start ≤ iv.end_)
    (hout : getFormattedBlockedIntervals [iv] startTime endTime = some [out]) :
    (iv.end_ < startTime →
        out.source.percent = 0 ∧ out.source.value = startTime ∧
        out.target.value = iv.end_ ∧ out.target.percent < 0) ∧
    (endTime < iv.start →
        out.target.percent = 100 ∧ out.target.value = endTime ∧
        out.source.value = iv.start ∧ 100 < out.source.percent) ∧
    (iv.end_ = startTime →
        out.source.percent = 0 ∧ out.target.percent = 0) ∧
    (iv.start = endTime →
        out.source.percent = 100 ∧ out.target.percent = 100) := by
  have hout' : clipOne startTime endTime (endTime - startTime) iv 0 = out := by
    simp [getFormattedBlockedIntervals, List.enum_cons] at hout
    exact hout
  subst hout'
  refine ⟨?_, ?_, ?_, ?_⟩
  · intro hbefore
    have hstart : (if iv.start < startTime then startTime else iv.start) = startTime := by
      split_ifs <;> omega
    have hend : (if endTime < iv.end_ then endTime else iv.end_) = iv.end_ := by
      split_ifs <;> omega
    simp only [clipOne, hstart, hend]
    exact ⟨getTimelineConfig_percent_eq_zero _ _ _ _ rfl, rfl, rfl,
      getTimelineConfig_percent_neg _ _ _ _ (by omega) (by omega)⟩
  · intro hafter
    have hstart : (if iv.start < startTime then startTime else iv.start) = iv.start := by
      split_ifs <;> omega
    have hend : (if endTime < iv.end_ then endTime else iv.end_) = endTime := by
      split_ifs <;> omega
    simp only [clipOne, hstart, hend]
    exact ⟨getTimelineConfig_percent_eq_hundred _ _ _ _ (by omega) (by omega), rfl, rfl,
      getTimelineConfig_percent_gt_hundred _ _ _ _ (by omega) (by omega)⟩
  · intro htouch
    have hstart : (if iv.start < startTime then startTime else iv.start) = startTime := by
      split_ifs <;> omega
    have hend : (if endTime < iv.end_ then endTime else iv.end_) = iv.end_ := by
      split_ifs <;> omega
    simp only [clipOne, hstart, hend]
    exact ⟨getTimelineConfig_percent_eq_zero _ _ _ _ rfl,
      getTimelineConfig_percent_eq_zero _ _ _ _ htouch⟩
  · intro htouch
    have hstart : (if iv.start < startTime then startTime else iv.start) = iv.start := by
      split_ifs <;> omega
    have hend : (if endTime < iv.end_ then endTime else iv.end_) = endTime := by
      split_ifs <;> omega
    simp only [clipOne, hstart, hend]
    exact ⟨getTimelineConfig_percent_eq_hundred _ _ _ _ (by omega) (by omega),
      getTimelineConfig_percent_eq_hundred _ _ _ _ (by omega) (by omega)⟩

/-- Witness for the amended C4: blocked [-100, -50], window [0, 100]
(entirely before the window, strict case). -/
theorem outside_interval_one_sided_clip_witness :
    (⟨"blocked-start-0", 0, 0⟩ : MappedPoint).percent = 0 ∧
    (⟨"blocked-start-0", 0, 0⟩ : MappedPoint).value = 0 ∧
    (⟨"blocked-end--50", -50, -50⟩ : MappedPoint).value = -50 ∧
    (⟨"blocked-end--50", -50, -50⟩ : MappedPoint).percent < 0 :=
  (outside_interval_one_sided_clip 0 100 ⟨"d", -100, -50⟩
    ⟨"blocked-track-0", ⟨"blocked-start-0", 0, 0⟩, ⟨"blocked-end--50", -50, -50⟩⟩
    (by norm_num) (by norm_num)
    (by norm_num [getFormattedBlockedIntervals, clipOne, getTimelineConfig,
                  List.enum_cons]
        exact ⟨rfl, rfl, rfl⟩)).1 (by norm_num)
